import Mathlib

/-!
Shallow embedding of the t3rn verification-and-settlement core:
the Portal router (src/pallets/portal/src/lib.rs) and the side-effect
lifecycle model (src/primitives/src/side_effect/mod.rs), together with
theorems settling the frozen claims about them.

Machine integers are modelled as `Nat` with explicit `% 2^w` where overflow
matters; fallible Rust code (`Result`, `Option::expect`) is modelled with
`Except` / `Option`.
-/

namespace T3rn

/-- Raw byte strings (the source's `Bytes = Vec<u8>`); each entry is one byte. -/
abbrev Bytes := List Nat

/-- A fixed 4-byte identifier (`[u8; 4]` in the source), used both as
`TargetId` in the side-effect module and as `ChainId` in the portal. -/
structure TargetId where
  b0 : Nat
  b1 : Nat
  b2 : Nat
  b3 : Nat
deriving DecidableEq

/-- 4-byte chain/gateway identifier (`ChainId = [u8; 4]`). -/
abbrev ChainId := TargetId

/-- `GatewayVendor` enumeration from `t3rn_primitives`, exactly the four
variants matched in `match_vendor_with_codec`. -/
inductive GatewayVendor
  | Rococo
  | Kusama
  | Polkadot
  | Ethereum
deriving DecidableEq

/-- `Codec` enumeration from `t3rn_abi::recode`: the two byte-level
serialization schemes the recoding engine translates between. -/
inductive Codec
  | Scale
  | Rlp
deriving DecidableEq

/-- The portal pallet's `Error<T>` enumeration (src/pallets/portal/src/lib.rs,
`#[pallet::error]`), all ten variants in declaration order. -/
inductive PortalError
  | XdnsRecordCreationFailed
  | UnimplementedGatewayVendor
  | RegistrationError
  | GatewayVendorNotFound
  | SetOwnerError
  | SetOperationalError
  | SubmitHeaderError
  | NoGatewayHeightAvailable
  | SideEffectConfirmationFailed
  | SFXRecodeError
deriving DecidableEq

/-- Substrate's `DispatchError`, restricted to what the portal code can
observe: a bad origin, a module error of this pallet (the `From<Error<T>>`
conversion performed by `?`), or an arbitrary error produced outside the
pallet (light clients, Xdns), indexed opaquely by a `Nat`. -/
inductive DispatchError
  | BadOrigin
  | module : PortalError → DispatchError
  | other : Nat → DispatchError
deriving DecidableEq

/-- The `From<Error<T>> for DispatchError` conversion applied by `?` in the
portal functions. -/
def PortalError.toDispatch (e : PortalError) : DispatchError :=
  DispatchError.module e

/-- Caller origin (`OriginFor<T>`): `some acc` is a signed origin,
`none` an origin that `ensure_signed` rejects. -/
abbrev Origin := Option Nat

/-- The `LightClient<T>` capability interface from `t3rn_primitives`,
as exercised by the portal: each field models one trait method. Stateful
behaviour is irrelevant to the routed claims, so methods are pure functions
of their arguments returning `Except DispatchError`. -/
structure LightClient where
  submit_headers : Origin → Bytes → Except DispatchError Unit
  get_latest_finalized_header : Except DispatchError (Option Bytes)
  get_latest_finalized_height : Except DispatchError (Option Nat)
  get_latest_updated_height : Except DispatchError (Option Nat)
  get_current_epoch : Except DispatchError (Option Nat)
  read_fast_confirmation_offset : Except DispatchError Nat
  read_rational_confirmation_offset : Except DispatchError Nat
  read_epoch_offset : Except DispatchError Nat
  verify_event_inclusion : ChainId → Bytes → Option Nat → Except DispatchError Bytes
  verify_state_inclusion : ChainId → Bytes → Option Nat → Except DispatchError Bytes
  verify_tx_inclusion : ChainId → Bytes → Option Nat → Except DispatchError Bytes
  init_gateway : Origin → ChainId → Bytes → Except DispatchError Unit
  turn_on : Origin → Except DispatchError Bool
  turn_off : Origin → Except DispatchError Bool

/-- The portal pallet's `Config`: the Xdns chain directory
(`get_verification_vendor`), the configured `LightClients` list, and the
external `recode_bytes_with_descriptor` function from `t3rn_abi`
(its algorithm is outside src/, so it is an opaque parameter here). -/
structure Config where
  xdns : ChainId → Except DispatchError GatewayVendor
  light_clients : List (GatewayVendor × LightClient)
  recode_bytes_with_descriptor : Bytes → Bytes → Codec → Codec → Except DispatchError Bytes

/-- `match_vendor_with_codec` (src/pallets/portal/src/lib.rs lines 111-118). -/
def match_vendor_with_codec : GatewayVendor → Codec
  | GatewayVendor.Rococo => Codec.Scale
  | GatewayVendor.Kusama => Codec.Scale
  | GatewayVendor.Polkadot => Codec.Scale
  | GatewayVendor.Ethereum => Codec.Rlp

/-- `match_light_client_by_vendor` (lines 128-138): linear `find` over the
configured `LightClients` list, `UnimplementedGatewayVendor` when no entry
has the requested vendor. -/
def match_light_client_by_vendor (cfg : Config) (vendor : GatewayVendor) :
    Except PortalError LightClient :=
  match (cfg.light_clients.find? fun p => decide (p.1 = vendor)).map Prod.snd with
  | some lc => Except.ok lc
  | none => Except.error PortalError.UnimplementedGatewayVendor

/-- `match_light_client_by_gateway_id` (lines 120-126): resolve the vendor
through Xdns (any directory failure is mapped to `GatewayVendorNotFound`),
then look the capability up by vendor. -/
def match_light_client_by_gateway_id (cfg : Config) (gateway_id : ChainId) :
    Except PortalError LightClient :=
  match cfg.xdns gateway_id with
  | Except.error _ => Except.error PortalError.GatewayVendorNotFound
  | Except.ok vendor => match_light_client_by_vendor cfg vendor

/-- The `match_light_client_by_gateway_id::<T>(gateway_id)?.method(...)`
pattern shared by every routed portal operation: resolve, convert a
resolution failure into `DispatchError`, and forward to the capability. -/
def withLightClient (cfg : Config) (gateway_id : ChainId)
    (k : LightClient → Except DispatchError α) : Except DispatchError α :=
  match match_light_client_by_gateway_id cfg gateway_id with
  | Except.error e => Except.error e.toDispatch
  | Except.ok lc => k lc

/-- The `submit_headers` dispatchable (lines 97-106): `ensure_signed`, then
route to the resolved light client. -/
def submit_headers (cfg : Config) (origin : Origin) (gateway_id : ChainId)
    (encoded_header_data : Bytes) : Except DispatchError Unit :=
  match origin with
  | none => Except.error DispatchError.BadOrigin
  | some _ =>
    withLightClient cfg gateway_id fun lc => lc.submit_headers origin encoded_header_data

/-- `Portal::get_latest_finalized_header` (lines 141-143). -/
def get_latest_finalized_header (cfg : Config) (gateway_id : ChainId) :
    Except DispatchError (Option Bytes) :=
  withLightClient cfg gateway_id fun lc => lc.get_latest_finalized_header

/-- `Portal::get_latest_finalized_height` (lines 145-149). -/
def get_latest_finalized_height (cfg : Config) (gateway_id : ChainId) :
    Except DispatchError (Option Nat) :=
  withLightClient cfg gateway_id fun lc => lc.get_latest_finalized_height

/-- `Portal::get_latest_updated_height` (lines 151-155). -/
def get_latest_updated_height (cfg : Config) (gateway_id : ChainId) :
    Except DispatchError (Option Nat) :=
  withLightClient cfg gateway_id fun lc => lc.get_latest_updated_height

/-- `Portal::get_current_epoch` (lines 157-159). -/
def get_current_epoch (cfg : Config) (gateway_id : ChainId) :
    Except DispatchError (Option Nat) :=
  withLightClient cfg gateway_id fun lc => lc.get_current_epoch

/-- `Portal::read_fast_confirmation_offset` (lines 161-163). -/
def read_fast_confirmation_offset (cfg : Config) (gateway_id : ChainId) :
    Except DispatchError Nat :=
  withLightClient cfg gateway_id fun lc => lc.read_fast_confirmation_offset

/-- `Portal::read_rational_confirmation_offset` (lines 165-169). -/
def read_rational_confirmation_offset (cfg : Config) (gateway_id : ChainId) :
    Except DispatchError Nat :=
  withLightClient cfg gateway_id fun lc => lc.read_rational_confirmation_offset

/-- `Portal::read_epoch_offset` (lines 171-173). -/
def read_epoch_offset (cfg : Config) (gateway_id : ChainId) :
    Except DispatchError Nat :=
  withLightClient cfg gateway_id fun lc => lc.read_epoch_offset

/-- `Portal::verify_event_inclusion` (lines 175-185). -/
def verify_event_inclusion (cfg : Config) (gateway_id : ChainId) (message : Bytes)
    (submission_target_height : Option Nat) : Except DispatchError Bytes :=
  withLightClient cfg gateway_id fun lc =>
    lc.verify_event_inclusion gateway_id message submission_target_height

/-- `Portal::verify_state_inclusion` (lines 187-197). -/
def verify_state_inclusion (cfg : Config) (gateway_id : ChainId) (message : Bytes)
    (submission_target_height : Option Nat) : Except DispatchError Bytes :=
  withLightClient cfg gateway_id fun lc =>
    lc.verify_state_inclusion gateway_id message submission_target_height

/-- `Portal::verify_tx_inclusion` (lines 199-209). -/
def verify_tx_inclusion (cfg : Config) (gateway_id : ChainId) (message : Bytes)
    (submission_target_height : Option Nat) : Except DispatchError Bytes :=
  withLightClient cfg gateway_id fun lc =>
    lc.verify_tx_inclusion gateway_id message submission_target_height

/-- `Portal::verify_state_inclusion_and_recode` (lines 211-227): verify, then
re-resolve the vendor to derive the source codec, then recode. -/
def verify_state_inclusion_and_recode (cfg : Config) (gateway_id : ChainId) (message : Bytes)
    (submission_target_height : Option Nat) (abi_descriptor : Bytes) (out_codec : Codec) :
    Except DispatchError Bytes :=
  match verify_state_inclusion cfg gateway_id message submission_target_height with
  | Except.error e => Except.error e
  | Except.ok encoded_ingress =>
    match cfg.xdns gateway_id with
    | Except.error _ => Except.error (PortalError.toDispatch PortalError.GatewayVendorNotFound)
    | Except.ok vendor =>
      cfg.recode_bytes_with_descriptor encoded_ingress abi_descriptor
        (match_vendor_with_codec vendor) out_codec

/-- `Portal::verify_tx_inclusion_and_recode` (lines 229-245). -/
def verify_tx_inclusion_and_recode (cfg : Config) (gateway_id : ChainId) (message : Bytes)
    (submission_target_height : Option Nat) (abi_descriptor : Bytes) (out_codec : Codec) :
    Except DispatchError Bytes :=
  match verify_tx_inclusion cfg gateway_id message submission_target_height with
  | Except.error e => Except.error e
  | Except.ok encoded_ingress =>
    match cfg.xdns gateway_id with
    | Except.error _ => Except.error (PortalError.toDispatch PortalError.GatewayVendorNotFound)
    | Except.ok vendor =>
      cfg.recode_bytes_with_descriptor encoded_ingress abi_descriptor
        (match_vendor_with_codec vendor) out_codec

/-- `Portal::verify_event_inclusion_and_recode` (lines 247-263). -/
def verify_event_inclusion_and_recode (cfg : Config) (gateway_id : ChainId) (message : Bytes)
    (submission_target_height : Option Nat) (abi_descriptor : Bytes) (out_codec : Codec) :
    Except DispatchError Bytes :=
  match verify_event_inclusion cfg gateway_id message submission_target_height with
  | Except.error e => Except.error e
  | Except.ok encoded_ingress =>
    match cfg.xdns gateway_id with
    | Except.error _ => Except.error (PortalError.toDispatch PortalError.GatewayVendorNotFound)
    | Except.ok vendor =>
      cfg.recode_bytes_with_descriptor encoded_ingress abi_descriptor
        (match_vendor_with_codec vendor) out_codec

/-- `Portal::initialize` (lines 265-275); named `init_gateway` here. -/
def init_gateway (cfg : Config) (origin : Origin) (gateway_id : ChainId)
    (encoded_registration_data : Bytes) : Except DispatchError Unit :=
  withLightClient cfg gateway_id fun lc =>
    lc.init_gateway origin gateway_id encoded_registration_data

/-- `Portal::turn_on` (lines 277-279). -/
def turn_on (cfg : Config) (origin : Origin) (gateway_id : ChainId) :
    Except DispatchError Bool :=
  withLightClient cfg gateway_id fun lc => lc.turn_on origin

/-- `Portal::turn_off` (lines 281-283). -/
def turn_off (cfg : Config) (origin : Origin) (gateway_id : ChainId) :
    Except DispatchError Bool :=
  withLightClient cfg gateway_id fun lc => lc.turn_off origin

/-- Modelled from the spec: the composition "verify, then recode with the
source codec derived from the resolved vendor, discarding the verified bytes
when recoding fails" (spec section 4.3); `verified` is the result of the
corresponding `verify_*_inclusion` call. Compared against the three
`verify_*_inclusion_and_recode` implementations. -/
def spec_verify_then_recode (cfg : Config) (gateway_id : ChainId)
    (verified : Except DispatchError Bytes) (abi_descriptor : Bytes) (out_codec : Codec) :
    Except DispatchError Bytes :=
  match verified with
  | Except.error e => Except.error e
  | Except.ok payload =>
    match cfg.xdns gateway_id with
    | Except.error _ => Except.error (PortalError.toDispatch PortalError.GatewayVendorNotFound)
    | Except.ok vendor =>
      cfg.recode_bytes_with_descriptor payload abi_descriptor
        (match_vendor_with_codec vendor) out_codec

/-! ## Side-effect lifecycle model (src/primitives/src/side_effect/mod.rs) -/

/-- `SecurityLvl` from `t3rn_types::side_effect` (declared outside src/).
Modelled from the spec: a closed enumeration of counterparty-risk classes;
`Dirty` is the unbonded level exercised by the code under src/, the
optimistic/bonded and escrowed levels are named by the spec (section 3). -/
inductive SecurityLvl
  | Dirty
  | Optimistic
  | Escrowed
deriving DecidableEq

/-- `ConfirmationOutcome` from `t3rn_types::side_effect` (declared outside
src/). Modelled from the spec: an outcome code with a success variant
(`Success` is constructed in src/) and failure variants; the exact failure
payloads are irrelevant to the claims. -/
inductive ConfirmationOutcome
  | Success
  | MisbehaviourMalformedValues (key expected received : Bytes)
  | TimedOut
deriving DecidableEq

/-- `SideEffect` from `t3rn_types::side_effect` (declared outside src/);
its full field list is fixed by the struct literals in src/ (tests, lines
155-163): target, prize, ordered_at, encoded_action, encoded_args,
signature, enforce_executioner. -/
structure SideEffect (AccountId BlockNumber BalanceOf : Type) where
  target : TargetId
  prize : BalanceOf
  ordered_at : BlockNumber
  encoded_action : Bytes
  encoded_args : List Bytes
  signature : Bytes
  enforce_executioner : Option AccountId
deriving DecidableEq

/-- `ConfirmedSideEffect` from `t3rn_types::side_effect` (declared outside
src/); its full field list is fixed by the struct literal in src/ (lines
206-213): err, output, inclusion_data, executioner, received_at, cost. -/
structure ConfirmedSideEffect (AccountId BlockNumber BalanceOf : Type) where
  err : Option ConfirmationOutcome
  output : Option Bytes
  inclusion_data : Bytes
  executioner : AccountId
  received_at : BlockNumber
  cost : Option BalanceOf
deriving DecidableEq

/-- `SFXBid` (src/primitives/src/side_effect/mod.rs lines 43-55). -/
structure SFXBid (AccountId BalanceOf : Type) where
  bid : BalanceOf
  optimistic_insurance : Option BalanceOf
  reserved_bond : Option BalanceOf
  executor : AccountId
  requester : AccountId
deriving DecidableEq

/-- `FullSideEffect` (src/primitives/src/side_effect/mod.rs lines 29-36). -/
structure FullSideEffect (AccountId BlockNumber BalanceOf : Type) where
  input : SideEffect AccountId BlockNumber BalanceOf
  confirmed : Option (ConfirmedSideEffect AccountId BlockNumber BalanceOf)
  security_lvl : SecurityLvl
  submission_target_height : Bytes
  best_bid : Option (SFXBid AccountId BalanceOf)
deriving DecidableEq

/-- `HardenedSideEffect` (the `FullSideEffect` of `t3rn_types::side_effect`,
re-exported under that name; declared outside src/); its full field list is
fixed by the struct literals in src/ (lines 121-133 and 220-247). -/
structure HardenedSideEffect (AccountId BlockNumber BalanceOf : Type) where
  target : TargetId
  prize : BalanceOf
  encoded_action : TargetId
  encoded_args : List Bytes
  encoded_args_abi : List Bytes
  security_lvl : SecurityLvl
  confirmation_outcome : Option ConfirmationOutcome
  confirmed_executioner : Option AccountId
  confirmed_received_at : Option BlockNumber
  confirmed_cost : Option BalanceOf
deriving DecidableEq

/-- The `Error` type of `t3rn_types::side_effect` used by `TryInto`
(declared outside src/). Modelled from the spec: only a `RecodeError`-class
failure is mentioned for hardening (section 4.4); no variant is ever
constructed by the code under src/. -/
inductive SideEffectError
  | RecodeFailure
deriving DecidableEq

/-- Rust's `Option::expect`: the carried value, or a panic with the given
message (a panic is modelled as `Except.error msg`). -/
def expectP (o : Option α) (msg : String) : Except String α :=
  match o with
  | some a => Except.ok a
  | none => Except.error msg

/-- `SFXBid::new_none_optimistic` (lines 58-66). -/
def SFXBid.new_none_optimistic (bid : BalanceOf) (executor requester : AccountId) :
    SFXBid AccountId BalanceOf :=
  { bid := bid
    optimistic_insurance := none
    reserved_bond := none
    executor := executor
    requester := requester }

/-- `SFXBid::expect_reserved_bond` (lines 68-72): the bond, or a panic
(modelled as `Except.error`) when absent. -/
def SFXBid.expect_reserved_bond (self : SFXBid AccountId BalanceOf) :
    Except String BalanceOf :=
  expectP self.reserved_bond "Accessed reserved_bond  and expected it to be a part of SFXBid"

/-- `SFXBid::expect_insurance` (lines 74-78): the insurance, or a panic
(modelled as `Except.error`) when absent. -/
def SFXBid.expect_insurance (self : SFXBid AccountId BalanceOf) :
    Except String BalanceOf :=
  expectP self.optimistic_insurance
    "Accessed optimistic_insurance  and expected it to be a part of SFXBid"

/-- `FullSideEffect::is_successfully_confirmed` (lines 87-95):
`confirmed.is_some() && confirmed.expect(..).err.is_none()`. The `none`
branch of the inner match is the short-circuited `expect` and is never
reached with `confirmed.isSome = true`. -/
def FullSideEffect.is_successfully_confirmed
    (self : FullSideEffect AccountId BlockNumber BalanceOf) : Bool :=
  self.confirmed.isSome &&
    (match self.confirmed with
     | some c => c.err.isNone
     | none => false)

/-- `FullSideEffect::expect_sfx_bid` (lines 97-101). -/
def FullSideEffect.expect_sfx_bid (self : FullSideEffect AccountId BlockNumber BalanceOf) :
    Except String (SFXBid AccountId BalanceOf) :=
  expectP self.best_bid "Accessed expected Bid and expected it to be a part of FSX"

/-- `TryFrom<Vec<u8>> for [u8; 4]`: succeeds exactly on 4-byte vectors. -/
def TargetId.try_from (bytes : Bytes) : Option TargetId :=
  match bytes with
  | [a, b, c, d] => some ⟨a, b, c, d⟩
  | _ => none

/-- `Default::default()` for `[u8; 4]`. -/
def TargetId.default_value : TargetId := ⟨0, 0, 0, 0⟩

/-- `TryInto<HardenedSideEffect> for FullSideEffect` (lines 114-134):
the hardening projection. Always `Ok`; the fixed-width conversion of
`encoded_action` falls back to the default on failure
(`unwrap_or_default`). -/
def FullSideEffect.try_into (self : FullSideEffect AccountId BlockNumber BalanceOf) :
    Except SideEffectError (HardenedSideEffect AccountId BlockNumber BalanceOf) :=
  let confirmation_outcome := self.confirmed.bind fun c => c.err
  let confirmed_executioner := self.confirmed.map fun c => c.executioner
  let confirmed_received_at := self.confirmed.map fun c => c.received_at
  let confirmed_cost := self.confirmed.bind fun c => c.cost
  Except.ok
    { target := self.input.target
      prize := self.input.prize
      encoded_action := (TargetId.try_from self.input.encoded_action).getD TargetId.default_value
      encoded_args := self.input.encoded_args
      encoded_args_abi := []
      security_lvl := self.security_lvl
      confirmation_outcome := confirmation_outcome
      confirmed_executioner := confirmed_executioner
      confirmed_received_at := confirmed_received_at
      confirmed_cost := confirmed_cost }

/-! ## SCALE encoding and Blake2b-256, for `generate_id`

`SideEffect::generate_id::<Hasher>` lives in `t3rn_types` (outside src/):
it hashes the SCALE encoding of the side effect with the configured hasher,
which the test under src/ instantiates with `BlakeTwo256`. Modelled from the
spec: a "deterministic content hash over the canonical encoding of all
SideEffect fields" (section 4.4), made concrete as Blake2b-256 over the
SCALE encoding so that the regression fixture of
`successfully_generates_id_for_side_empty_effect` (src/, lines 278-296) is
checkable. The concrete field widths are those of the test instantiation:
`BalanceOf = u128`, `BlockNumber = u32`, `AccountId = AccountId32`. -/

/-- Fixed-width little-endian byte encoding: `width` bytes of `n`. -/
def leBytes : Nat → Nat → List Nat
  | 0, _ => []
  | w + 1, n => n % 256 :: leBytes w (n / 256)

/-- Minimal little-endian byte encoding of a positive number (fuel-bounded
so the definition is structural and kernel-reducible). -/
def leBytesMin : Nat → Nat → List Nat
  | 0, _ => []
  | f + 1, n => if n = 0 then [] else n % 256 :: leBytesMin f (n / 256)

/-- SCALE compact length-prefix encoding of a `Nat`. -/
def compactEncode (n : Nat) : List Nat :=
  if n < 64 then [n * 4]
  else if n < 16384 then leBytes 2 (n * 4 + 1)
  else if n < 1073741824 then leBytes 4 (n * 4 + 2)
  else
    let payload := leBytesMin 64 n
    ((payload.length - 4) * 4 + 3) :: payload

/-- SCALE encoding of a `Vec<u8>`: compact length, then the raw bytes. -/
def scaleEncodeBytes (bs : Bytes) : List Nat :=
  compactEncode bs.length ++ bs

/-- SCALE encoding of a `Vec<Vec<u8>>`. -/
def scaleEncodeVecBytes (xs : List Bytes) : List Nat :=
  compactEncode xs.length ++ (xs.map scaleEncodeBytes).flatten

/-- An `AccountId32`, modelled as its 32 raw bytes (its SCALE encoding). -/
abbrev AccountId32 := List Nat

/-- SCALE encoding of an `Option<AccountId32>`. -/
def scaleEncodeOptionAccount : Option AccountId32 → List Nat
  | none => [0]
  | some a => 1 :: a

/-- The test instantiation of `SideEffect` (src/, lines 148-151):
`AccountId = AccountId32`, `BlockNumber = u32`, `BalanceOf = u128`. -/
abbrev SideEffectC := SideEffect AccountId32 Nat Nat

/-- The test instantiation of `FullSideEffect`. -/
abbrev FullSideEffectC := FullSideEffect AccountId32 Nat Nat

/-- SCALE encoding of a `SideEffect<AccountId32, u32, u128>`: the
concatenation of the field encodings in declaration order (`derive(Encode)`
semantics). -/
def scaleEncodeSideEffect (s : SideEffectC) : List Nat :=
  [s.target.b0, s.target.b1, s.target.b2, s.target.b3]
    ++ leBytes 16 s.prize
    ++ leBytes 4 s.ordered_at
    ++ scaleEncodeBytes s.encoded_action
    ++ scaleEncodeVecBytes s.encoded_args
    ++ scaleEncodeBytes s.signature
    ++ scaleEncodeOptionAccount s.enforce_executioner

/-- `2 ^ 64`, the modulus of 64-bit word arithmetic. -/
def MOD64 : Nat := 18446744073709551616

/-- `2 ^ 64 - 1`. -/
def MASK64 : Nat := 18446744073709551615

/-- 64-bit wrapping addition. -/
def wadd (a b : Nat) : Nat := (a + b) % MOD64

/-- 64-bit right rotation (arguments below `2 ^ 64`). -/
def rotr64 (x n : Nat) : Nat := (x >>> n) ||| ((x <<< (64 - n)) % MOD64)

/-- The Blake2b `G` mixing function (RFC 7693, section 3.1). -/
def gmix (a b c d x y : Nat) : Nat × Nat × Nat × Nat :=
  let a1 := wadd (wadd a b) x
  let d1 := rotr64 (d ^^^ a1) 32
  let c1 := wadd c d1
  let b1 := rotr64 (b ^^^ c1) 24
  let a2 := wadd (wadd a1 b1) y
  let d2 := rotr64 (d1 ^^^ a2) 16
  let c2 := wadd c1 d2
  let b2 := rotr64 (b1 ^^^ c2) 63
  (a2, b2, c2, d2)

/-- The 16-word working state of the Blake2b compression function. -/
structure V16 where
  (v0 v1 v2 v3 v4 v5 v6 v7 v8 v9 v10 v11 v12 v13 v14 v15 : Nat)

/-- One Blake2b round: `m` is the 16-word message block, `s` the sigma
permutation row for this round. -/
def blake2bRound (m : List Nat) (s : List Nat) (v : V16) : V16 :=
  let mi := fun (j : Nat) => m.getD (s.getD j 0) 0
  let (a0, b0, c0, d0) := gmix v.v0 v.v4 v.v8 v.v12 (mi 0) (mi 1)
  let (a1, b1, c1, d1) := gmix v.v1 v.v5 v.v9 v.v13 (mi 2) (mi 3)
  let (a2, b2, c2, d2) := gmix v.v2 v.v6 v.v10 v.v14 (mi 4) (mi 5)
  let (a3, b3, c3, d3) := gmix v.v3 v.v7 v.v11 v.v15 (mi 6) (mi 7)
  let (w0, w5, w10, w15) := gmix a0 b1 c2 d3 (mi 8) (mi 9)
  let (w1, w6, w11, w12) := gmix a1 b2 c3 d0 (mi 10) (mi 11)
  let (w2, w7, w8, w13) := gmix a2 b3 c0 d1 (mi 12) (mi 13)
  let (w3, w4, w9, w14) := gmix a3 b0 c1 d2 (mi 14) (mi 15)
  ⟨w0, w1, w2, w3, w4, w5, w6, w7, w8, w9, w10, w11, w12, w13, w14, w15⟩

/-- The Blake2b initialization vector (RFC 7693, section 2.6). -/
def blakeIV : List Nat :=
  [0x6a09e667f3bcc908, 0xbb67ae8584caa73b, 0x3c6ef372fe94f82b, 0xa54ff53a5f1d36f1,
   0x510e527fade682d1, 0x9b05688c2b3e6c1f, 0x1f83d9abfb41bd6b, 0x5be0cd19137e2179]

/-- The Blake2b sigma message schedule (RFC 7693, section 2.7); rounds 10
and 11 reuse rows 0 and 1. -/
def sigmaRows : List (List Nat) :=
  [[0, 1, 2, 3, 4, 5, 6, 7, 8, 9, 10, 11, 12, 13, 14, 15],
   [14, 10, 4, 8, 9, 15, 13, 6, 1, 12, 0, 2, 11, 7, 5, 3],
   [11, 8, 12, 0, 5, 2, 15, 13, 10, 14, 3, 6, 7, 1, 9, 4],
   [7, 9, 3, 1, 13, 12, 11, 14, 2, 6, 5, 10, 4, 0, 15, 8],
   [9, 0, 5, 7, 2, 4, 10, 15, 14, 1, 11, 12, 6, 8, 3, 13],
   [2, 12, 6, 10, 0, 11, 8, 3, 4, 13, 7, 5, 15, 14, 1, 9],
   [12, 5, 1, 15, 14, 13, 4, 10, 0, 7, 6, 3, 9, 2, 8, 11],
   [13, 11, 7, 14, 12, 1, 3, 9, 5, 0, 15, 4, 8, 6, 2, 10],
   [6, 15, 14, 9, 11, 3, 0, 8, 12, 2, 13, 7, 1, 4, 10, 5],
   [10, 2, 8, 4, 7, 6, 1, 5, 15, 11, 9, 14, 3, 12, 13, 0]]

/-- Split a byte list into chunks of `size` (fuel-bounded structural
recursion so the definition is kernel-reducible). -/
def chunksGo (size : Nat) : Nat → List Nat → List (List Nat)
  | 0, _ => []
  | _, [] => []
  | fuel + 1, a :: rest => ((a :: rest).take size) :: chunksGo size fuel ((a :: rest).drop size)

/-- Split a byte list into chunks of `size`. -/
def chunks (size : Nat) (l : List Nat) : List (List Nat) :=
  chunksGo size (l.length + 1) l

/-- Little-endian word value of a byte list (first byte least significant). -/
def leWord : List Nat → Nat
  | [] => 0
  | b :: rest => b + 256 * leWord rest

/-- Pad a byte list with zeros to `n` bytes. -/
def padTo (n : Nat) (bs : List Nat) : List Nat :=
  bs ++ List.replicate (n - bs.length) 0

/-- The Blake2b compression function `F` (RFC 7693, section 3.2): `h` is the
8-word state, `block` a 128-byte block, `t` the byte counter, `final`
whether this is the last block. -/
def blake2bCompress (h : List Nat) (block : List Nat) (t : Nat) (final : Bool) : List Nat :=
  let m := (chunks 8 block).map leWord
  let hv := fun (i : Nat) => h.getD i 0
  let iv := fun (i : Nat) => blakeIV.getD i 0
  let v : V16 :=
    ⟨hv 0, hv 1, hv 2, hv 3, hv 4, hv 5, hv 6, hv 7,
     iv 0, iv 1, iv 2, iv 3,
     (iv 4) ^^^ (t % MOD64), (iv 5) ^^^ (t / MOD64 % MOD64),
     if final then (iv 6) ^^^ MASK64 else iv 6, iv 7⟩
  let w := (List.range 12).foldl
    (fun acc i => blake2bRound m (sigmaRows.getD (i % 10) []) acc) v
  [hv 0 ^^^ w.v0 ^^^ w.v8, hv 1 ^^^ w.v1 ^^^ w.v9, hv 2 ^^^ w.v2 ^^^ w.v10,
   hv 3 ^^^ w.v3 ^^^ w.v11, hv 4 ^^^ w.v4 ^^^ w.v12, hv 5 ^^^ w.v5 ^^^ w.v13,
   hv 6 ^^^ w.v6 ^^^ w.v14, hv 7 ^^^ w.v7 ^^^ w.v15]

/-- Initial Blake2b-256 state: the IV with `h0` xored with the parameter
word `0x01010020` (digest length 32, fanout 1, depth 1, no key). -/
def blake2b256Init : List Nat :=
  [0x6a09e667f2bdc928, 0xbb67ae8584caa73b, 0x3c6ef372fe94f82b, 0xa54ff53a5f1d36f1,
   0x510e527fade682d1, 0x9b05688c2b3e6c1f, 0x1f83d9abfb41bd6b, 0x5be0cd19137e2179]

/-- Fold the compression function over the message blocks: every block but
the last counts 128 bytes; the last is zero-padded, counted at the total
message length, and flagged final. -/
def blake2bGo (h : List Nat) (blocks : List (List Nat)) (counted total : Nat) : List Nat :=
  match blocks with
  | [] => h
  | [b] => blake2bCompress h (padTo 128 b) total true
  | b :: b2 :: rest =>
    blake2bGo (blake2bCompress h b (counted + 128) false) (b2 :: rest) (counted + 128) total

/-- Blake2b-256 of a byte string (RFC 7693, unkeyed, 32-byte digest):
the first four words of the final state, serialized little-endian. -/
def blake2b_256 (msg : List Nat) : List Nat :=
  let blocks := if msg.isEmpty then [[]] else chunks 128 msg
  ((blake2bGo blake2b256Init blocks 0 msg.length).take 4).map (leBytes 8) |>.flatten

/-- `SideEffect::generate_id::<BlakeTwo256>` at the test instantiation:
Blake2b-256 of the SCALE encoding of the side effect. -/
def generate_id (s : SideEffectC) : List Nat :=
  blake2b_256 (scaleEncodeSideEffect s)

/-! ## Fixtures

Concrete values taken from the tests under src/ (lines 153-311). -/

/-- The empty side effect of `successfully_creates_empty_side_effect` and
`successfully_generates_id_for_side_empty_effect` (src/, lines 155-163 and
280-288). -/
def emptySideEffect : SideEffectC :=
  { target := ⟨0, 0, 0, 0⟩
    prize := 0
    ordered_at := 0
    encoded_action := []
    encoded_args := []
    signature := []
    enforce_executioner := none }

/-- `AccountId32::new([1u8; 32])`, the sender of the transfer scenario. -/
def fromAccount : AccountId32 := List.replicate 32 1

/-- `AccountId32::new([2u8; 32])`, the recipient of the transfer scenario. -/
def toAccount : AccountId32 := List.replicate 32 2

/-- The transfer-style side effect of
`successfully_encodes_transfer_full_side_effect_with_confirmation`
(src/, lines 187-200): arguments are the SCALE encodings of the sender, the
recipient, the amount `1u128`, and the concatenated optional insurance
`2u128` and reward `3u128`. -/
def transferSideEffect : SideEffectC :=
  { target := ⟨0, 0, 0, 0⟩
    prize := 0
    ordered_at := 0
    encoded_action := []
    encoded_args := [fromAccount, toAccount, leBytes 16 1, leBytes 16 2 ++ leBytes 16 3]
    signature := []
    enforce_executioner := none }

/-- The confirmed transfer `FullSideEffect` of the same test (src/, lines
202-214): security level `Dirty`, a confirmation with outcome `Success`,
empty output, the sender as executioner, height 1 and cost 2. -/
def transferFullSideEffect : FullSideEffectC :=
  { input := transferSideEffect
    confirmed := some
      { err := some ConfirmationOutcome.Success
        output := some []
        inclusion_data := []
        executioner := fromAccount
        received_at := 1
        cost := some 2 }
    security_lvl := SecurityLvl.Dirty
    submission_target_height := [1, 0, 0, 0, 0, 0, 0, 0]
    best_bid := none }

/-- `transferFullSideEffect` with the confirmation's optional output absent
instead of present; all other fields identical. -/
def transferFullSideEffectNoOutput : FullSideEffectC :=
  { transferFullSideEffect with
    confirmed := some
      { err := some ConfirmationOutcome.Success
        output := none
        inclusion_data := []
        executioner := fromAccount
        received_at := 1
        cost := some 2 } }

/-- `transferFullSideEffect` with a non-4-byte action selector. -/
def shortActionFullSideEffect : FullSideEffectC :=
  { transferFullSideEffect with
    input := { transferSideEffect with encoded_action := [1, 2, 3] } }

/-- `transferFullSideEffect` with a different submission target height and
an attached best bid; `input`, `confirmed` and `security_lvl` unchanged. -/
def biddedFullSideEffect : FullSideEffectC :=
  { transferFullSideEffect with
    submission_target_height := [9, 9]
    best_bid := some
      { bid := 10
        optimistic_insurance := some 4
        reserved_bond := some 6
        executor := toAccount
        requester := fromAccount } }

/-- A portal configuration whose chain directory has no entry for any
chain id. -/
def noDirectoryConfig : Config :=
  { xdns := fun _ => Except.error (DispatchError.other 0)
    light_clients := []
    recode_bytes_with_descriptor := fun payload _ _ _ => Except.ok payload }

/-- A portal configuration that resolves every chain id to `Ethereum` but
registers no light client for any vendor. -/
def noCapabilityConfig : Config :=
  { xdns := fun _ => Except.ok GatewayVendor.Ethereum
    light_clients := []
    recode_bytes_with_descriptor := fun payload _ _ _ => Except.ok payload }

/-- A sample bid with insurance present and bond absent. -/
def sampleBid : SFXBid Nat Nat :=
  { bid := 1
    optimistic_insurance := some 5
    reserved_bond := none
    executor := 7
    requester := 8 }

/-! ## Claims -/

/-- C1, counterexample: the repo's own transfer fixture carries a
`ConfirmedSideEffect` whose outcome is `Success` — an outcome that denotes
success — yet `is_successfully_confirmed` returns `false` on it, because the
code tests `err.is_none()` and treats every present outcome, `Success`
included, as "not successfully confirmed". -/
theorem c1_success_outcome_counterexample :
    transferFullSideEffect.confirmed.map (fun c => c.err) =
      some (some ConfirmationOutcome.Success) ∧
    transferFullSideEffect.is_successfully_confirmed = false := by
  exact ⟨rfl, rfl⟩

/-- C1 (amended): `is_successfully_confirmed` returns `true` iff the
`confirmed` field holds a `ConfirmedSideEffect` whose `err`/outcome field is
`none`; absence of a confirmation, or a confirmation carrying any explicit
outcome — a failure outcome or even `Success` — yields `false`. -/
theorem is_successfully_confirmed_iff_err_none
    (fsx : FullSideEffect AccountId BlockNumber BalanceOf) :
    fsx.is_successfully_confirmed = true ↔
      ∃ c, fsx.confirmed = some c ∧ c.err = none := by
  cases hc : fsx.confirmed with
  | none => simp [FullSideEffect.is_successfully_confirmed, hc]
  | some c =>
    cases he : c.err <;>
      simp [FullSideEffect.is_successfully_confirmed, hc, he]

/-- C2, counterexample: hardening loses information a valid confirmation
carried — two `FullSideEffect`s whose confirmations differ (one has the
optional `output` present, the other absent) harden to the same settlement
record, because the settlement record has no field for the confirmation's
`output` (nor for its `inclusion_data`). -/
theorem c2_output_dropped_counterexample :
    transferFullSideEffect.confirmed ≠ transferFullSideEffectNoOutput.confirmed ∧
    (∃ c, transferFullSideEffect.confirmed = some c ∧ c.output = some []) ∧
    transferFullSideEffect.try_into = transferFullSideEffectNoOutput.try_into := by
  exact ⟨by decide, ⟨_, rfl, rfl⟩, rfl⟩

/-- C2 (amended): when a confirmation is present, hardening maps its
`err`, `executioner`, `received_at` and `cost` fields to the settlement
record without loss — each present optional among them stays present — but
the confirmation's `output` and `inclusion_data` fields are discarded. -/
theorem hardening_preserves_confirmation_fields
    (fsx : FullSideEffect AccountId BlockNumber BalanceOf)
    (c : ConfirmedSideEffect AccountId BlockNumber BalanceOf)
    (h : fsx.confirmed = some c) :
    ∃ hsx, fsx.try_into = Except.ok hsx ∧
      hsx.confirmation_outcome = c.err ∧
      hsx.confirmed_executioner = some c.executioner ∧
      hsx.confirmed_received_at = some c.received_at ∧
      hsx.confirmed_cost = c.cost := by
  refine ⟨_, rfl, ?_, ?_, ?_, ?_⟩ <;> simp [FullSideEffect.try_into, h]

/-- C2 witness: the amended theorem applied to the transfer fixture. -/
theorem c2_amended_witness :
    ∃ hsx, transferFullSideEffect.try_into = Except.ok hsx ∧
      hsx.confirmation_outcome = some ConfirmationOutcome.Success ∧
      hsx.confirmed_executioner = some fromAccount ∧
      hsx.confirmed_received_at = some 1 ∧
      hsx.confirmed_cost = some 2 := by
  obtain ⟨hsx, h1, h2, h3, h4, h5⟩ :=
    hardening_preserves_confirmation_fields transferFullSideEffect _ rfl
  exact ⟨hsx, h1, h2, h3, h4, h5⟩

/-- A byte vector of length other than four has no 4-byte fixed-width
conversion. -/
theorem try_from_eq_none_of_length_ne_four (bs : Bytes) (h : bs.length ≠ 4) :
    TargetId.try_from bs = none := by
  match bs with
  | [] => rfl
  | [_] => rfl
  | [_, _] => rfl
  | [_, _, _] => rfl
  | [_, _, _, _] => exact absurd rfl h
  | _ :: _ :: _ :: _ :: _ :: _ => rfl

/-- C3: hardening never aborts — it returns `Ok` on every input; the
fixed-width conversion of `encoded_action` is the only fallible step and on
failure (any length other than four) the settlement record's
`encoded_action` is the default zero selector instead of an error, while a
4-byte action is taken over verbatim. -/
theorem hardening_total_with_default_action
    (fsx : FullSideEffect AccountId BlockNumber BalanceOf) :
    ∃ hsx, fsx.try_into = Except.ok hsx ∧
      (∀ a b c d, fsx.input.encoded_action = [a, b, c, d] →
        hsx.encoded_action = ⟨a, b, c, d⟩) ∧
      (fsx.input.encoded_action.length ≠ 4 →
        hsx.encoded_action = TargetId.default_value) := by
  refine ⟨_, rfl, ?_, ?_⟩
  · intro a b c d h
    simp [FullSideEffect.try_into, h, TargetId.try_from]
  · intro h
    simp [FullSideEffect.try_into, try_from_eq_none_of_length_ne_four _ h]

/-- C3 witness: a 3-byte action selector hardens to the default zero
selector rather than failing. -/
theorem c3_default_action_witness :
    ∃ hsx, shortActionFullSideEffect.try_into = Except.ok hsx ∧
      hsx.encoded_action = TargetId.default_value := by
  obtain ⟨hsx, h1, _, h3⟩ :=
    hardening_total_with_default_action shortActionFullSideEffect
  exact ⟨hsx, h1, h3 (by decide)⟩

/-- C7: `generate_id` is a pure function of the side effect's field contents
— structurally identical side effects yield the same identifier — and on the
empty side effect (target `[0,0,0,0]`, prize 0, ordered_at 0, empty action,
arguments and signature, no enforced executioner) it yields exactly the
regression fixture
`0x5d0d3f21208ec6b3c32b85e5d535b804713bf7b658559a10058c9c4d9fd2c79a`. -/
theorem generate_id_deterministic_and_fixed (s1 s2 : SideEffectC) (h : s1 = s2) :
    generate_id s1 = generate_id s2 ∧
    generate_id emptySideEffect =
      [0x5d, 0x0d, 0x3f, 0x21, 0x20, 0x8e, 0xc6, 0xb3, 0xc3, 0x2b, 0x85, 0xe5,
       0xd5, 0x35, 0xb8, 0x04, 0x71, 0x3b, 0xf7, 0xb6, 0x58, 0x55, 0x9a, 0x10,
       0x05, 0x8c, 0x9c, 0x4d, 0x9f, 0xd2, 0xc7, 0x9a] := by
  set_option maxRecDepth 10000 in
  exact ⟨h ▸ rfl, by decide⟩

/-- C7 witness: the theorem applied at the empty side effect. -/
theorem c7_generate_id_witness :
    generate_id emptySideEffect = generate_id emptySideEffect ∧
    generate_id emptySideEffect =
      [0x5d, 0x0d, 0x3f, 0x21, 0x20, 0x8e, 0xc6, 0xb3, 0xc3, 0x2b, 0x85, 0xe5,
       0xd5, 0x35, 0xb8, 0x04, 0x71, 0x3b, 0xf7, 0xb6, 0x58, 0x55, 0x9a, 0x10,
       0x05, 0x8c, 0x9c, 0x4d, 0x9f, 0xd2, 0xc7, 0x9a] :=
  generate_id_deterministic_and_fixed emptySideEffect emptySideEffect rfl

/-- C8: hardening the confirmed transfer fixture (security level `Dirty`,
successful confirmation with the sender as executioner, height 1, cost 2)
yields a settlement record with outcome `Success`, the sender as confirmed
executioner, confirmed height 1, confirmed cost 2, and the argument list of
the input side effect unchanged. -/
theorem transfer_hardening_scenario :
    ∃ hsx, transferFullSideEffect.try_into = Except.ok hsx ∧
      hsx.confirmation_outcome = some ConfirmationOutcome.Success ∧
      hsx.confirmed_executioner = some fromAccount ∧
      hsx.confirmed_received_at = some 1 ∧
      hsx.confirmed_cost = some 2 ∧
      hsx.encoded_args = transferFullSideEffect.input.encoded_args := by
  exact ⟨_, rfl, rfl, rfl, rfl, rfl, rfl⟩

/-- C9: the `expect_*` accessors of `SFXBid` return the carried value
exactly when the optional field is present, and fail fast (a panic, modelled
as `Except.error` with the source's panic message) when it is absent. -/
theorem expect_accessors_fail_fast (b : SFXBid AccountId BalanceOf) :
    (∀ v, b.optimistic_insurance = some v → b.expect_insurance = Except.ok v) ∧
    (b.optimistic_insurance = none →
      b.expect_insurance =
        Except.error "Accessed optimistic_insurance  and expected it to be a part of SFXBid") ∧
    (∀ v, b.reserved_bond = some v → b.expect_reserved_bond = Except.ok v) ∧
    (b.reserved_bond = none →
      b.expect_reserved_bond =
        Except.error "Accessed reserved_bond  and expected it to be a part of SFXBid") := by
  refine ⟨fun v h => ?_, fun h => ?_, fun v h => ?_, fun h => ?_⟩ <;>
    simp [SFXBid.expect_insurance, SFXBid.expect_reserved_bond, expectP, h]

/-- C9 witness: the theorem applied to a bid with insurance present and
reserved bond absent. -/
theorem c9_expect_witness :
    sampleBid.expect_insurance = Except.ok 5 ∧
    sampleBid.expect_reserved_bond =
      Except.error "Accessed reserved_bond  and expected it to be a part of SFXBid" :=
  ⟨(expect_accessors_fail_fast sampleBid).1 5 rfl,
   (expect_accessors_fail_fast sampleBid).2.2.2 rfl⟩

/-- C10: hardening is independent of the attached bid and of the submission
target height — two `FullSideEffect`s agreeing on `input`, `confirmed` and
`security_lvl` harden identically, whatever their `best_bid` and
`submission_target_height`. -/
theorem hardening_ignores_bid_and_target_height
    (f1 f2 : FullSideEffect AccountId BlockNumber BalanceOf)
    (hin : f1.input = f2.input) (hconf : f1.confirmed = f2.confirmed)
    (hsec : f1.security_lvl = f2.security_lvl) :
    f1.try_into = f2.try_into := by
  cases f1
  cases f2
  simp only at hin hconf hsec
  simp [FullSideEffect.try_into, hin, hconf, hsec]

/-- C10 witness: the transfer fixture and its variant with a different
submission target height and an attached bid harden to the same record. -/
theorem c10_bid_independence_witness :
    transferFullSideEffect.try_into = biddedFullSideEffect.try_into :=
  hardening_ignores_bid_and_target_height transferFullSideEffect biddedFullSideEffect
    rfl rfl rfl

/-- C4: when the chain directory has no verification-vendor entry for a
chain id (the Xdns lookup fails, whatever its error), resolution and every
portal operation routed through the dispatch path fail with
`GatewayVendorNotFound`. The statement holds for every configuration with
that failing directory — in particular for every possible light-client
list — so no light-client capability can influence (or be invoked by) the
outcome. -/
theorem dispatch_vendor_not_found (cfg : Config) (gid : ChainId) (e : DispatchError)
    (h : cfg.xdns gid = Except.error e) :
    match_light_client_by_gateway_id cfg gid =
      Except.error PortalError.GatewayVendorNotFound ∧
    (∀ acc data, submit_headers cfg (some acc) gid data =
      Except.error (PortalError.toDispatch PortalError.GatewayVendorNotFound)) ∧
    get_latest_finalized_header cfg gid =
      Except.error (PortalError.toDispatch PortalError.GatewayVendorNotFound) ∧
    get_latest_finalized_height cfg gid =
      Except.error (PortalError.toDispatch PortalError.GatewayVendorNotFound) ∧
    get_latest_updated_height cfg gid =
      Except.error (PortalError.toDispatch PortalError.GatewayVendorNotFound) ∧
    get_current_epoch cfg gid =
      Except.error (PortalError.toDispatch PortalError.GatewayVendorNotFound) ∧
    read_fast_confirmation_offset cfg gid =
      Except.error (PortalError.toDispatch PortalError.GatewayVendorNotFound) ∧
    read_rational_confirmation_offset cfg gid =
      Except.error (PortalError.toDispatch PortalError.GatewayVendorNotFound) ∧
    read_epoch_offset cfg gid =
      Except.error (PortalError.toDispatch PortalError.GatewayVendorNotFound) ∧
    (∀ msg ht, verify_event_inclusion cfg gid msg ht =
      Except.error (PortalError.toDispatch PortalError.GatewayVendorNotFound)) ∧
    (∀ msg ht, verify_state_inclusion cfg gid msg ht =
      Except.error (PortalError.toDispatch PortalError.GatewayVendorNotFound)) ∧
    (∀ msg ht, verify_tx_inclusion cfg gid msg ht =
      Except.error (PortalError.toDispatch PortalError.GatewayVendorNotFound)) ∧
    (∀ msg ht abi oc, verify_event_inclusion_and_recode cfg gid msg ht abi oc =
      Except.error (PortalError.toDispatch PortalError.GatewayVendorNotFound)) ∧
    (∀ msg ht abi oc, verify_state_inclusion_and_recode cfg gid msg ht abi oc =
      Except.error (PortalError.toDispatch PortalError.GatewayVendorNotFound)) ∧
    (∀ msg ht abi oc, verify_tx_inclusion_and_recode cfg gid msg ht abi oc =
      Except.error (PortalError.toDispatch PortalError.GatewayVendorNotFound)) ∧
    (∀ origin data, init_gateway cfg origin gid data =
      Except.error (PortalError.toDispatch PortalError.GatewayVendorNotFound)) ∧
    (∀ origin, turn_on cfg origin gid =
      Except.error (PortalError.toDispatch PortalError.GatewayVendorNotFound)) ∧
    (∀ origin, turn_off cfg origin gid =
      Except.error (PortalError.toDispatch PortalError.GatewayVendorNotFound)) := by
  have hm : match_light_client_by_gateway_id cfg gid =
      Except.error PortalError.GatewayVendorNotFound := by
    simp [match_light_client_by_gateway_id, h]
  refine ⟨hm, ?_, ?_, ?_, ?_, ?_, ?_, ?_, ?_, ?_, ?_, ?_, ?_, ?_, ?_, ?_, ?_, ?_⟩ <;>
    simp [submit_headers, get_latest_finalized_header, get_latest_finalized_height,
      get_latest_updated_height, get_current_epoch, read_fast_confirmation_offset,
      read_rational_confirmation_offset, read_epoch_offset, verify_event_inclusion,
      verify_state_inclusion, verify_tx_inclusion, verify_event_inclusion_and_recode,
      verify_state_inclusion_and_recode, verify_tx_inclusion_and_recode,
      init_gateway, turn_on, turn_off, withLightClient, hm]

/-- C4 witness: the theorem applied to a configuration whose directory is
empty, at a concrete chain id. -/
theorem c4_vendor_not_found_witness :
    noDirectoryConfig.xdns ⟨1, 1, 1, 1⟩ = Except.error (DispatchError.other 0) ∧
    match_light_client_by_gateway_id noDirectoryConfig ⟨1, 1, 1, 1⟩ =
      Except.error PortalError.GatewayVendorNotFound ∧
    verify_event_inclusion noDirectoryConfig ⟨1, 1, 1, 1⟩ [] none =
      Except.error (PortalError.toDispatch PortalError.GatewayVendorNotFound) ∧
    turn_on noDirectoryConfig (some 3) ⟨1, 1, 1, 1⟩ =
      Except.error (PortalError.toDispatch PortalError.GatewayVendorNotFound) := by
  obtain ⟨h1, _, _, _, _, _, _, _, _, hev, _, _, _, _, _, _, hon, _⟩ :=
    dispatch_vendor_not_found noDirectoryConfig ⟨1, 1, 1, 1⟩ (DispatchError.other 0) rfl
  exact ⟨rfl, h1, hev [] none, hon (some 3)⟩

/-- C5: when the configured light-client list has no entry for a vendor,
`match_light_client_by_vendor` fails with `UnimplementedGatewayVendor`
(pure lookup, no side effects), and every routed operation on a chain id the
directory resolves to that vendor fails with the same error. -/
theorem lookup_unimplemented_vendor (cfg : Config) (vendor : GatewayVendor)
    (hnone : ∀ p ∈ cfg.light_clients, p.1 ≠ vendor) :
    match_light_client_by_vendor cfg vendor =
      Except.error PortalError.UnimplementedGatewayVendor ∧
    ∀ gid, cfg.xdns gid = Except.ok vendor →
      match_light_client_by_gateway_id cfg gid =
        Except.error PortalError.UnimplementedGatewayVendor ∧
      (∀ acc data, submit_headers cfg (some acc) gid data =
        Except.error (PortalError.toDispatch PortalError.UnimplementedGatewayVendor)) ∧
      (∀ msg ht, verify_event_inclusion cfg gid msg ht =
        Except.error (PortalError.toDispatch PortalError.UnimplementedGatewayVendor)) ∧
      (∀ msg ht, verify_state_inclusion cfg gid msg ht =
        Except.error (PortalError.toDispatch PortalError.UnimplementedGatewayVendor)) ∧
      (∀ msg ht, verify_tx_inclusion cfg gid msg ht =
        Except.error (PortalError.toDispatch PortalError.UnimplementedGatewayVendor)) ∧
      get_latest_finalized_header cfg gid =
        Except.error (PortalError.toDispatch PortalError.UnimplementedGatewayVendor) ∧
      (∀ origin, turn_on cfg origin gid =
        Except.error (PortalError.toDispatch PortalError.UnimplementedGatewayVendor)) ∧
      (∀ origin, turn_off cfg origin gid =
        Except.error (PortalError.toDispatch PortalError.UnimplementedGatewayVendor)) := by
  have hfind : cfg.light_clients.find? (fun p => decide (p.1 = vendor)) = none := by
    rw [List.find?_eq_none]
    intro p hp
    simpa using hnone p hp
  have hv : match_light_client_by_vendor cfg vendor =
      Except.error PortalError.UnimplementedGatewayVendor := by
    simp [match_light_client_by_vendor, hfind]
  refine ⟨hv, fun gid hgid => ?_⟩
  have hm : match_light_client_by_gateway_id cfg gid =
      Except.error PortalError.UnimplementedGatewayVendor := by
    simp [match_light_client_by_gateway_id, hgid, hv]
  refine ⟨hm, ?_, ?_, ?_, ?_, ?_, ?_, ?_⟩ <;>
    simp [submit_headers, verify_event_inclusion, verify_state_inclusion,
      verify_tx_inclusion, get_latest_finalized_header, turn_on, turn_off,
      withLightClient, hm]

/-- C5 witness: the theorem applied to a configuration resolving every chain
id to `Ethereum` while registering no light client at all. -/
theorem c5_unimplemented_vendor_witness :
    match_light_client_by_vendor noCapabilityConfig GatewayVendor.Ethereum =
      Except.error PortalError.UnimplementedGatewayVendor ∧
    verify_tx_inclusion noCapabilityConfig ⟨2, 2, 2, 2⟩ [7] (some 5) =
      Except.error (PortalError.toDispatch PortalError.UnimplementedGatewayVendor) := by
  have h := lookup_unimplemented_vendor noCapabilityConfig GatewayVendor.Ethereum
    (by intro p hp; cases hp)
  exact ⟨h.1, (h.2 ⟨2, 2, 2, 2⟩ rfl).2.2.2.2.1 [7] (some 5)⟩

/-- C6: each of the three `verify_*_inclusion_and_recode` operations equals
the composition "the corresponding `verify_*_inclusion`, then
`recode_bytes_with_descriptor` with the source codec derived from the
resolved vendor" (`spec_verify_then_recode`); a verification error is
propagated unchanged, and when verification succeeds but recoding fails only
the recoding error is returned — the verified intermediate bytes are
discarded. -/
theorem verify_and_recode_composition (cfg : Config) (gid : ChainId)
    (msg : Bytes) (ht : Option Nat) (abi : Bytes) (oc : Codec) :
    verify_event_inclusion_and_recode cfg gid msg ht abi oc =
      spec_verify_then_recode cfg gid (verify_event_inclusion cfg gid msg ht) abi oc ∧
    verify_state_inclusion_and_recode cfg gid msg ht abi oc =
      spec_verify_then_recode cfg gid (verify_state_inclusion cfg gid msg ht) abi oc ∧
    verify_tx_inclusion_and_recode cfg gid msg ht abi oc =
      spec_verify_then_recode cfg gid (verify_tx_inclusion cfg gid msg ht) abi oc ∧
    (∀ e, verify_event_inclusion cfg gid msg ht = Except.error e →
      verify_event_inclusion_and_recode cfg gid msg ht abi oc = Except.error e) ∧
    (∀ e, verify_state_inclusion cfg gid msg ht = Except.error e →
      verify_state_inclusion_and_recode cfg gid msg ht abi oc = Except.error e) ∧
    (∀ e, verify_tx_inclusion cfg gid msg ht = Except.error e →
      verify_tx_inclusion_and_recode cfg gid msg ht abi oc = Except.error e) ∧
    (∀ payload vendor e, verify_event_inclusion cfg gid msg ht = Except.ok payload →
      cfg.xdns gid = Except.ok vendor →
      cfg.recode_bytes_with_descriptor payload abi (match_vendor_with_codec vendor) oc =
        Except.error e →
      verify_event_inclusion_and_recode cfg gid msg ht abi oc = Except.error e) ∧
    (∀ payload vendor e, verify_state_inclusion cfg gid msg ht = Except.ok payload →
      cfg.xdns gid = Except.ok vendor →
      cfg.recode_bytes_with_descriptor payload abi (match_vendor_with_codec vendor) oc =
        Except.error e →
      verify_state_inclusion_and_recode cfg gid msg ht abi oc = Except.error e) ∧
    (∀ payload vendor e, verify_tx_inclusion cfg gid msg ht = Except.ok payload →
      cfg.xdns gid = Except.ok vendor →
      cfg.recode_bytes_with_descriptor payload abi (match_vendor_with_codec vendor) oc =
        Except.error e →
      verify_tx_inclusion_and_recode cfg gid msg ht abi oc = Except.error e) := by
  refine ⟨rfl, rfl, rfl, ?_, ?_, ?_, ?_, ?_, ?_⟩
  · intro e he
    simp [verify_event_inclusion_and_recode, he]
  · intro e he
    simp [verify_state_inclusion_and_recode, he]
  · intro e he
    simp [verify_tx_inclusion_and_recode, he]
  · intro payload vendor e hok hx hrec
    simp [verify_event_inclusion_and_recode, hok, hx, hrec]
  · intro payload vendor e hok hx hrec
    simp [verify_state_inclusion_and_recode, hok, hx, hrec]
  · intro payload vendor e hok hx hrec
    simp [verify_tx_inclusion_and_recode, hok, hx, hrec]

/-- C6 witness: the composition equalities and the verification-error
propagation clause at a concrete configuration and input. -/
theorem c6_composition_witness :
    verify_event_inclusion_and_recode noDirectoryConfig ⟨1, 1, 1, 1⟩ [] none [] Codec.Scale =
      spec_verify_then_recode noDirectoryConfig ⟨1, 1, 1, 1⟩
        (verify_event_inclusion noDirectoryConfig ⟨1, 1, 1, 1⟩ [] none) [] Codec.Scale ∧
    verify_event_inclusion_and_recode noDirectoryConfig ⟨1, 1, 1, 1⟩ [] none [] Codec.Scale =
      Except.error (PortalError.toDispatch PortalError.GatewayVendorNotFound) := by
  have h := verify_and_recode_composition noDirectoryConfig ⟨1, 1, 1, 1⟩ [] none [] Codec.Scale
  exact ⟨h.1, h.2.2.2.1 (PortalError.toDispatch PortalError.GatewayVendorNotFound) rfl⟩

end T3rn
